import Mathlib

/-!
Shallow embedding of the XPay runtime module (src/runtime/src/xpay.rs).

Storage (decl_storage), with ItemId, Item, AccountId, AssetId and Balance
all instantiated as Nat:
  Items          : map ItemId => Option Item
  ItemOwners     : map ItemId => Option AccountId
  ItemQuantities : map ItemId => u32        (default 0 on missing key)
  ItemPrices     : map ItemId => Option (AssetId, Balance)
  NextItemId     : ItemId                   (default 0)

The parametric types of the Rust module are instantiated with Nat:
the item id type is parametric with `CheckedAdd`; we model its checked
increment with an explicit bound `idMax` (the largest representable id
value).  The balance type is parametric with `CheckedMul`; we model its
checked multiplication with an explicit bound `balMax`.  `u32` quantities
are Nats with saturation at `u32Max`.

The external collaborators (generic_asset transfer, cennzx_spot swap)
are modelled as an oracle `pay : PaymentCall → Except String Unit`; the
`PaymentCall` value records exactly which primitive was invoked and with
which arguments, and the oracle decides the outcome (propagating the
collaborator error string on failure, as the Rust `?` does).
-/

namespace XPay

/-- Maximum value of a u32 quantity. -/
def u32Max : Nat := 4294967295

/-- PriceOf<T> = (AssetIdOf<T>, BalanceOf<T>): first component the asset
id, second the amount.  Account ids, item ids, asset ids, balances and item
content (all parametric types in the Rust module) are modelled as Nat. -/
abbrev Price := Nat × Nat

/-- u32::checked_sub. -/
def checked_sub (a b : Nat) : Option Nat :=
  if b ≤ a then some (a - b) else none

/-- CheckedAdd for the id type, with explicit representable bound. -/
def checked_add (bound a b : Nat) : Option Nat :=
  if a + b ≤ bound then some (a + b) else none

/-- CheckedMul for the balance type, with explicit representable bound. -/
def checked_mul (bound a b : Nat) : Option Nat :=
  if a * b ≤ bound then some (a * b) else none

/-- u32::saturating_add. -/
def saturating_add (a b : Nat) : Nat := min (a + b) u32Max

/-- u32::saturating_sub. -/
def saturating_sub (a b : Nat) : Nat := a - b

/-- Point update of a total map (StorageMap::insert; a u32-valued map reads
0 at a missing key, an Option-valued map reads none, so both are total). -/
def mapInsert {α : Type} (m : Nat → α) (k : Nat) (v : α) : Nat → α :=
  fun i => if i = k then v else m i

/-- The XPay storage. -/
structure XPayState where
  items : Nat → Option Nat
  itemOwners : Nat → Option Nat
  itemQuantities : Nat → Nat
  itemPrices : Nat → Option Price
  nextItemId : Nat

/-- Genesis storage: all maps empty, counter at the default id (0). -/
def initialState : XPayState :=
  { items := fun _ => none
    itemOwners := fun _ => none
    itemQuantities := fun _ => 0
    itemPrices := fun _ => none
    nextItemId := 0 }

/-- An invocation of one of the two external payment primitives, with the
arguments the module passes. -/
inductive PaymentCall where
  | transfer (asset : Nat) (buyer : Nat) (seller : Nat) (amount : Nat)
  | swap (buyer : Nat) (recipient : Nat) (assetSold : Nat)
      (assetBought : Nat) (buyAmount : Nat) (maxPayingAmount : Nat)
      (feeRate : Nat)
deriving DecidableEq

/-- create_item: allocate the next id with checked increment (the last
available id is the overflow mark and is never used), then insert into all
four maps. -/
def create_item (idMax : Nat) (origin : Nat) (quantity : Nat) (item : Nat)
    (price : Price) (s : XPayState) : Except String Unit × XPayState :=
  let item_id := s.nextItemId
  match checked_add idMax item_id 1 with
  | none => (.error "No new item id is available.", s)
  | some next_item_id =>
    (.ok (),
      { items := mapInsert s.items item_id (some item)
        itemOwners := mapInsert s.itemOwners item_id (some origin)
        itemQuantities := mapInsert s.itemQuantities item_id quantity
        itemPrices := mapInsert s.itemPrices item_id (some price)
        nextItemId := next_item_id })

/-- add_item: mutate the quantity entry with saturating_add; no existence
check against the Items map. -/
def add_item (origin : Nat) (item_id : Nat) (quantity : Nat)
    (s : XPayState) : Except String Unit × XPayState :=
  let _ := origin
  (.ok (),
    { s with itemQuantities := (mapInsert s.itemQuantities item_id
        (saturating_add (s.itemQuantities item_id) quantity)) })

/-- remove_item: mutate the quantity entry with saturating_sub; no existence
check against the Items map. -/
def remove_item (origin : Nat) (item_id : Nat) (quantity : Nat)
    (s : XPayState) : Except String Unit × XPayState :=
  let _ := origin
  (.ok (),
    { s with itemQuantities := (mapInsert s.itemQuantities item_id
        (saturating_sub (s.itemQuantities item_id) quantity)) })

/-- update_item: ensure the Items entry exists, then overwrite quantity and
price when supplied; finally read the price back, where the Rust code does
expect("Item exists; Item price must exists; qed") — its failure branch is
modelled as an error outcome. -/
def update_item (origin : Nat) (item_id : Nat) (quantity : Option Nat)
    (price : Option Price) (s : XPayState) : Except String Unit × XPayState :=
  let _ := origin
  if (s.items item_id).isSome then
    let s1 :=
      match quantity with
      | some q => { s with itemQuantities := mapInsert s.itemQuantities item_id q }
      | none => s
    let s2 :=
      match price with
      | some p => { s1 with itemPrices := mapInsert s1.itemPrices item_id (some p) }
      | none => s1
    match s2.itemPrices item_id with
    | some _ => (.ok (), s2)
    | none => (.error "Item exists; Item price must exists; qed", s2)
  else
    (.error "Item did not exist", s)

/-- Result of a purchase_item call: dispatch outcome, resulting storage, and
the external payment call invoked (none when the call failed before reaching
a payment primitive). -/
structure PurchaseResult where
  outcome : Except String Unit
  state : XPayState
  call : Option PaymentCall

/-- purchase_item: checked subtraction of the quantity (a pure computation,
not a write), price lookup, owner lookup, checked multiplication of the
unit amount by the quantity, then either a same-asset direct transfer
(guarded by the strict comparison total < max) or a cross-asset swap
buying exactly the unit price amount with the max_total_price amount as
the cap on what is paid; only after the payment succeeds is the new
quantity written. -/
def purchase_item (balMax : Nat) (pay : PaymentCall → Except String Unit)
    (feeRate : Nat) (origin : Nat) (quantity : Nat) (item_id : Nat)
    (max_total_price : Price) (s : XPayState) : PurchaseResult :=
  match checked_sub (s.itemQuantities item_id) quantity with
  | none => ⟨.error "Not enough quantity", s, none⟩
  | some new_quantity =>
    match s.itemPrices item_id with
    | none => ⟨.error "No item price", s, none⟩
    | some item_price =>
      match s.itemOwners item_id with
      | none => ⟨.error "No item owner", s, none⟩
      | some seller =>
        match checked_mul balMax item_price.2 quantity with
        | none => ⟨.error "Total price overflow", s, none⟩
        | some total_price_amount =>
          if item_price.1 = max_total_price.1 then
            if total_price_amount < max_total_price.2 then
              match pay (PaymentCall.transfer item_price.1 origin seller total_price_amount) with
              | .ok _ =>
                ⟨.ok (),
                  { s with itemQuantities := mapInsert s.itemQuantities item_id new_quantity },
                  some (PaymentCall.transfer item_price.1 origin seller total_price_amount)⟩
              | .error e =>
                ⟨.error e, s,
                  some (PaymentCall.transfer item_price.1 origin seller total_price_amount)⟩
            else
              ⟨.error "User paying price too low", s, none⟩
          else
            match pay (PaymentCall.swap origin seller max_total_price.1 item_price.1
                item_price.2 max_total_price.2 feeRate) with
            | .ok _ =>
              ⟨.ok (),
                { s with itemQuantities := mapInsert s.itemQuantities item_id new_quantity },
                some (PaymentCall.swap origin seller max_total_price.1 item_price.1
                  item_price.2 max_total_price.2 feeRate)⟩
            | .error e =>
              ⟨.error e, s,
                some (PaymentCall.swap origin seller max_total_price.1 item_price.1
                  item_price.2 max_total_price.2 feeRate)⟩

/-- One dispatchable call, with its authenticated origin and, for purchase,
the payment oracle and the current exchange fee rate. -/
inductive Op where
  | create (origin : Nat) (quantity : Nat) (item : Nat) (price : Price)
  | add (origin : Nat) (item_id : Nat) (quantity : Nat)
  | remove (origin : Nat) (item_id : Nat) (quantity : Nat)
  | update (origin : Nat) (item_id : Nat) (quantity : Option Nat) (price : Option Price)
  | purchase (pay : PaymentCall → Except String Unit) (feeRate : Nat)
      (origin : Nat) (quantity : Nat) (item_id : Nat) (max_total_price : Price)

/-- The storage after dispatching one call (whether it succeeded or failed). -/
def applyOp (idMax balMax : Nat) (op : Op) (s : XPayState) : XPayState :=
  match op with
  | .create origin q item p => (create_item idMax origin q item p s).2
  | .add origin id q => (add_item origin id q s).2
  | .remove origin id q => (remove_item origin id q s).2
  | .update origin id q p => (update_item origin id q p s).2
  | .purchase pay fr origin q id mtp => (purchase_item balMax pay fr origin q id mtp s).state

/-- States reachable from genesis by any sequence of dispatched calls. -/
inductive Reachable (idMax balMax : Nat) : XPayState → Prop where
  | init : Reachable idMax balMax initialState
  | step (op : Op) {s : XPayState} : Reachable idMax balMax s →
      Reachable idMax balMax (applyOp idMax balMax op s)

/-- Run a list of calls in order from a state. -/
def run (idMax balMax : Nat) (s : XPayState) : List Op → XPayState
  | [] => s
  | op :: rest => run idMax balMax (applyOp idMax balMax op s) rest

/-- Number of successful create_item calls in a list of calls run from a
state. -/
def countCreateOk (idMax balMax : Nat) (s : XPayState) : List Op → Nat
  | [] => 0
  | op :: rest =>
    (match op with
     | .create origin q item p =>
       match (create_item idMax origin q item p s).1 with
       | .ok _ => 1
       | .error _ => 0
     | _ => 0) + countCreateOk idMax balMax (applyOp idMax balMax op s) rest

/-- A concrete state used to instantiate theorems: the state after one
successful create_item (origin 7, quantity 100, content 42, price
(asset 1, amount 10)) from genesis, with id bound 1000 and balance bound
1000000. -/
def sampleOp : Op := Op.create 7 100 42 (1, 10)

/-- Concrete one-item state reached by dispatching sampleOp from genesis. -/
def sampleState : XPayState := applyOp 1000 1000000 sampleOp initialState

/-- Structural invariant of the storage: the counter never exceeds the id
bound, every registered item has an id below the counter, and every
registered item has an owner entry and a price entry. -/
def GoodState (idMax : Nat) (s : XPayState) : Prop :=
  s.nextItemId ≤ idMax ∧
  (∀ id, (s.items id).isSome → id < s.nextItemId) ∧
  (∀ id, (s.items id).isSome → (s.itemOwners id).isSome ∧ (s.itemPrices id).isSome)

@[simp]
theorem mapInsert_self {α : Type} (m : Nat → α) (k : Nat) (v : α) :
    mapInsert m k v k = v := by
  simp [mapInsert]

@[simp]
theorem mapInsert_ne {α : Type} (m : Nat → α) (k : Nat) (v : α) (j : Nat)
    (h : j ≠ k) : mapInsert m k v j = m j := by
  simp [mapInsert, h]

/-- C8: for every item id (existing or not) and every delta, add_item sets
the stored quantity to saturating_add(current, delta) (clamped at the u32
maximum) and succeeds, and remove_item sets it to saturating_sub(current,
delta) (floored at 0) and succeeds; neither checks the Items map, so a
non-existent id is handled with current quantity 0. -/
theorem add_remove_item_saturating (origin : Nat) (item_id : Nat)
    (delta : Nat) (s : XPayState) :
    (add_item origin item_id delta s).1 = .ok () ∧
    (add_item origin item_id delta s).2.itemQuantities item_id
      = min (s.itemQuantities item_id + delta) u32Max ∧
    (remove_item origin item_id delta s).1 = .ok () ∧
    (remove_item origin item_id delta s).2.itemQuantities item_id
      = s.itemQuantities item_id - delta := by
  refine ⟨rfl, ?_, rfl, ?_⟩ <;>
    simp [add_item, remove_item, saturating_add, saturating_sub]

/-- C9: update_item on an id with no Items entry fails with the not-found
error and leaves the whole storage (all four maps and the counter) exactly
as it was, for every combination of optional arguments. -/
theorem update_item_not_found (origin : Nat) (item_id : Nat)
    (q : Option Nat) (p : Option Price) (s : XPayState)
    (h : s.items item_id = none) :
    update_item origin item_id q p s = (.error "Item did not exist", s) := by
  simp [update_item, h]

/-- Witness for update_item_not_found at a concrete input. -/
theorem update_item_not_found_w :
    update_item 7 0 (some 5) (some (1, 2)) initialState
      = (.error "Item did not exist", initialState) :=
  update_item_not_found 7 0 (some 5) (some (1, 2)) initialState rfl

/-- C7: an authenticated create_item succeeds exactly when id allocation
succeeds; on success all four maps hold the supplied entries under the
allocated id (the old counter value) and the counter advances; on
allocation failure it returns the exhaustion error and the whole storage
is unchanged. -/
theorem create_item_registers_all (idMax : Nat) (origin : Nat)
    (quantity : Nat) (item : Nat) (price : Price) (s : XPayState) :
    (s.nextItemId + 1 ≤ idMax →
      (create_item idMax origin quantity item price s).1 = .ok () ∧
      (create_item idMax origin quantity item price s).2.items s.nextItemId = some item ∧
      (create_item idMax origin quantity item price s).2.itemOwners s.nextItemId = some origin ∧
      (create_item idMax origin quantity item price s).2.itemQuantities s.nextItemId = quantity ∧
      (create_item idMax origin quantity item price s).2.itemPrices s.nextItemId = some price ∧
      (create_item idMax origin quantity item price s).2.nextItemId = s.nextItemId + 1) ∧
    (idMax < s.nextItemId + 1 →
      (create_item idMax origin quantity item price s).1 = .error "No new item id is available." ∧
      (create_item idMax origin quantity item price s).2 = s) := by
  constructor
  · intro h
    simp [create_item, checked_add, h]
  · intro h
    simp [create_item, checked_add, Nat.not_le_of_lt h]

/-- Witness for create_item_registers_all: a successful creation from
genesis with id bound 1000, and a failing one with id bound 0. -/
theorem create_item_registers_all_w :
    ((create_item 1000 7 100 42 (1, 10) initialState).1 = .ok () ∧
      (create_item 1000 7 100 42 (1, 10) initialState).2.items 0 = some 42 ∧
      (create_item 1000 7 100 42 (1, 10) initialState).2.itemOwners 0 = some 7 ∧
      (create_item 1000 7 100 42 (1, 10) initialState).2.itemQuantities 0 = 100 ∧
      (create_item 1000 7 100 42 (1, 10) initialState).2.itemPrices 0 = some (1, 10) ∧
      (create_item 1000 7 100 42 (1, 10) initialState).2.nextItemId = 0 + 1) ∧
    ((create_item 0 7 100 42 (1, 10) initialState).1 = .error "No new item id is available." ∧
      (create_item 0 7 100 42 (1, 10) initialState).2 = initialState) :=
  ⟨(create_item_registers_all 1000 7 100 42 (1, 10) initialState).1 (by decide),
   (create_item_registers_all 0 7 100 42 (1, 10) initialState).2 (by decide)⟩

/-- purchase_item never writes the Items, ItemOwners or ItemPrices maps nor
the NextItemId counter, and never writes a quantity entry of another id. -/
theorem purchase_item_frame (balMax : Nat) (pay : PaymentCall → Except String Unit)
    (feeRate : Nat) (origin : Nat) (quantity : Nat) (item_id : Nat)
    (mtp : Price) (s : XPayState) :
    (purchase_item balMax pay feeRate origin quantity item_id mtp s).state.items = s.items ∧
    (purchase_item balMax pay feeRate origin quantity item_id mtp s).state.itemOwners = s.itemOwners ∧
    (purchase_item balMax pay feeRate origin quantity item_id mtp s).state.itemPrices = s.itemPrices ∧
    (purchase_item balMax pay feeRate origin quantity item_id mtp s).state.nextItemId = s.nextItemId ∧
    ∀ j, j ≠ item_id →
      (purchase_item balMax pay feeRate origin quantity item_id mtp s).state.itemQuantities j
        = s.itemQuantities j := by
  unfold purchase_item
  repeat' split
  all_goals refine ⟨rfl, rfl, rfl, rfl, fun j hj => ?_⟩
  all_goals simp [mapInsert, hj]

/-- Whenever purchase_item returns an error, the whole storage is unchanged:
no write at all happened, in particular no quantity write before the payment
call succeeded. -/
theorem purchase_item_error_state (balMax : Nat) (pay : PaymentCall → Except String Unit)
    (feeRate : Nat) (origin : Nat) (quantity : Nat) (item_id : Nat)
    (mtp : Price) (s : XPayState) :
    ∀ e, (purchase_item balMax pay feeRate origin quantity item_id mtp s).outcome = .error e →
      (purchase_item balMax pay feeRate origin quantity item_id mtp s).state = s := by
  unfold purchase_item
  repeat' split
  all_goals intro e h
  all_goals first | rfl | simp_all

/-- Whenever purchase_item succeeds, the requested quantity was available,
the stored quantity decreased by exactly that amount, and a payment call was
invoked and succeeded. -/
theorem purchase_item_ok_state (balMax : Nat) (pay : PaymentCall → Except String Unit)
    (feeRate : Nat) (origin : Nat) (quantity : Nat) (item_id : Nat)
    (mtp : Price) (s : XPayState) :
    (purchase_item balMax pay feeRate origin quantity item_id mtp s).outcome = .ok () →
      quantity ≤ s.itemQuantities item_id ∧
      (purchase_item balMax pay feeRate origin quantity item_id mtp s).state.itemQuantities item_id
        = s.itemQuantities item_id - quantity ∧
      ∃ c, (purchase_item balMax pay feeRate origin quantity item_id mtp s).call = some c ∧
        pay c = .ok () := by
  unfold purchase_item
  repeat' split
  all_goals intro h
  all_goals simp_all [checked_sub, mapInsert]

/-- C1: whenever purchase_item returns success the stored quantity of the
purchased id decreased by exactly the requested quantity (from the value
read at the start of the call, which was at least the requested quantity),
and a payment call was invoked and succeeded; whenever it returns any
error (including a failure reported by the transfer or swap collaborator)
the whole storage — in particular the stored quantity — is unchanged, so
the quantity is never written before the payment call has succeeded. -/
theorem purchase_item_quantity_change (balMax : Nat) (pay : PaymentCall → Except String Unit)
    (feeRate : Nat) (origin : Nat) (quantity : Nat) (item_id : Nat)
    (mtp : Price) (s : XPayState) :
    ((purchase_item balMax pay feeRate origin quantity item_id mtp s).outcome = .ok () →
      quantity ≤ s.itemQuantities item_id ∧
      (purchase_item balMax pay feeRate origin quantity item_id mtp s).state.itemQuantities item_id
        = s.itemQuantities item_id - quantity ∧
      ∃ c, (purchase_item balMax pay feeRate origin quantity item_id mtp s).call = some c ∧
        pay c = .ok ()) ∧
    ∀ e, (purchase_item balMax pay feeRate origin quantity item_id mtp s).outcome = .error e →
      (purchase_item balMax pay feeRate origin quantity item_id mtp s).state = s :=
  ⟨purchase_item_ok_state balMax pay feeRate origin quantity item_id mtp s,
   purchase_item_error_state balMax pay feeRate origin quantity item_id mtp s⟩

/-- Witness for purchase_item_quantity_change: a successful purchase of 5
units (quantity 100 becomes 95), and a purchase whose transfer collaborator
fails, leaving the storage unchanged. -/
theorem purchase_item_quantity_change_w :
    (5 ≤ sampleState.itemQuantities 0 ∧
      (purchase_item 1000000 (fun _ => .ok ()) 0 3 5 0 (1, 51) sampleState).state.itemQuantities 0
        = sampleState.itemQuantities 0 - 5 ∧
      ∃ c, (purchase_item 1000000 (fun _ => .ok ()) 0 3 5 0 (1, 51) sampleState).call = some c ∧
        (fun _ => (Except.ok () : Except String Unit)) c = .ok ()) ∧
    (purchase_item 1000000 (fun _ => .error "no balance") 0 3 5 0 (1, 51) sampleState).state
      = sampleState :=
  ⟨(purchase_item_quantity_change 1000000 (fun _ => .ok ()) 0 3 5 0 (1, 51) sampleState).1 rfl,
   (purchase_item_quantity_change 1000000 (fun _ => .error "no balance") 0 3 5 0
      (1, 51) sampleState).2 "no balance" rfl⟩

/-- C10: purchase_item leaves the Items, ItemOwners and ItemPrices maps and
the NextItemId counter unchanged in every outcome; the only storage it ever
writes is the ItemQuantities entry of the purchased id, and only on
success. -/
theorem purchase_item_frame_effect (balMax : Nat) (pay : PaymentCall → Except String Unit)
    (feeRate : Nat) (origin : Nat) (quantity : Nat) (item_id : Nat)
    (mtp : Price) (s : XPayState) :
    (purchase_item balMax pay feeRate origin quantity item_id mtp s).state.items = s.items ∧
    (purchase_item balMax pay feeRate origin quantity item_id mtp s).state.itemOwners = s.itemOwners ∧
    (purchase_item balMax pay feeRate origin quantity item_id mtp s).state.itemPrices = s.itemPrices ∧
    (purchase_item balMax pay feeRate origin quantity item_id mtp s).state.nextItemId = s.nextItemId ∧
    (∀ j, j ≠ item_id →
      (purchase_item balMax pay feeRate origin quantity item_id mtp s).state.itemQuantities j
        = s.itemQuantities j) ∧
    ∀ e, (purchase_item balMax pay feeRate origin quantity item_id mtp s).outcome = .error e →
      (purchase_item balMax pay feeRate origin quantity item_id mtp s).state.itemQuantities
        = s.itemQuantities := by
  obtain ⟨h1, h2, h3, h4, h5⟩ := purchase_item_frame balMax pay feeRate origin quantity item_id mtp s
  refine ⟨h1, h2, h3, h4, h5, fun e he => ?_⟩
  rw [purchase_item_error_state balMax pay feeRate origin quantity item_id mtp s e he]

/-- Witness for purchase_item_frame_effect: on a successful purchase the
other maps and a foreign quantity entry are untouched, and on a failing
purchase the quantity map is untouched entirely. -/
theorem purchase_item_frame_effect_w :
    (purchase_item 1000000 (fun _ => .ok ()) 0 3 5 0 (1, 51) sampleState).state.items
      = sampleState.items ∧
    (purchase_item 1000000 (fun _ => .ok ()) 0 3 5 0 (1, 51) sampleState).state.itemQuantities 1
      = sampleState.itemQuantities 1 ∧
    (purchase_item 1000000 (fun _ => .error "no balance") 0 3 5 0 (1, 51) sampleState).state.itemQuantities
      = sampleState.itemQuantities := by
  have h := purchase_item_frame_effect 1000000 (fun _ => .ok ()) 0 3 5 0 (1, 51) sampleState
  have h2 := purchase_item_frame_effect 1000000 (fun _ => .error "no balance") 0 3 5 0
    (1, 51) sampleState
  exact ⟨h.1, h.2.2.2.2.1 1 (by decide), h2.2.2.2.2.2 "no balance" rfl⟩

/-- C2: on the cross-asset path (price asset different from the
max_total_price asset, all earlier checks passed) the engine invokes the
swap-for-output primitive with the buyer as payer, the seller as recipient,
max_total_price.asset as the asset sold with cap max_total_price.amount,
the listing price asset as the asset bought, the bought amount exactly the
unit price amount price.amount (not the computed total), and the current
fee rate; the call outcome is exactly the collaborator outcome. -/
theorem purchase_item_cross_asset (balMax : Nat) (pay : PaymentCall → Except String Unit)
    (feeRate : Nat) (origin : Nat) (quantity : Nat) (item_id : Nat)
    (p mtp : Price) (seller : Nat) (s : XPayState)
    (hq : quantity ≤ s.itemQuantities item_id)
    (hp : s.itemPrices item_id = some p)
    (ho : s.itemOwners item_id = some seller)
    (hm : p.2 * quantity ≤ balMax)
    (hne : p.1 ≠ mtp.1) :
    (purchase_item balMax pay feeRate origin quantity item_id mtp s).call
      = some (PaymentCall.swap origin seller mtp.1 p.1 p.2 mtp.2 feeRate) ∧
    (purchase_item balMax pay feeRate origin quantity item_id mtp s).outcome
      = pay (PaymentCall.swap origin seller mtp.1 p.1 p.2 mtp.2 feeRate) := by
  have hsub : checked_sub (s.itemQuantities item_id) quantity
      = some (s.itemQuantities item_id - quantity) := by
    simp [checked_sub, hq]
  have hmul : checked_mul balMax p.2 quantity = some (p.2 * quantity) := by
    simp [checked_mul, hm]
  unfold purchase_item
  simp only [hsub, hp, ho, hmul]
  rw [if_neg hne]
  cases hpc : pay (PaymentCall.swap origin seller mtp.1 p.1 p.2 mtp.2 feeRate) <;>
    simp [hpc]

/-- Witness for purchase_item_cross_asset: buying 5 units priced in asset 1
while paying in asset 2 invokes the swap for exactly the unit amount 10
capped at 500, and succeeds when the collaborator does. -/
theorem purchase_item_cross_asset_w :
    (purchase_item 1000000 (fun _ => .ok ()) 4 3 5 0 (2, 500) sampleState).call
      = some (PaymentCall.swap 3 7 2 1 10 500 4) ∧
    (purchase_item 1000000 (fun _ => .ok ()) 4 3 5 0 (2, 500) sampleState).outcome
      = (fun _ => (Except.ok () : Except String Unit)) (PaymentCall.swap 3 7 2 1 10 500 4) :=
  purchase_item_cross_asset 1000000 (fun _ => .ok ()) 4 3 5 0 (1, 10) (2, 500) 7 sampleState
    (by decide) rfl rfl (by decide) (by decide)

/-- C3: on the same-asset path (all earlier checks passed) the call fails
with the price-too-low error, storage unchanged and no payment invoked,
whenever the computed total is not strictly below max_total_price.amount —
so a maximum exactly equal to the total is rejected — and the direct
transfer of the total from buyer to seller is invoked only under the strict
inequality. -/
theorem purchase_item_same_asset_strict (balMax : Nat) (pay : PaymentCall → Except String Unit)
    (feeRate : Nat) (origin : Nat) (quantity : Nat) (item_id : Nat)
    (p mtp : Price) (seller : Nat) (s : XPayState)
    (hq : quantity ≤ s.itemQuantities item_id)
    (hp : s.itemPrices item_id = some p)
    (ho : s.itemOwners item_id = some seller)
    (hm : p.2 * quantity ≤ balMax)
    (heq : p.1 = mtp.1) :
    (mtp.2 ≤ p.2 * quantity →
      (purchase_item balMax pay feeRate origin quantity item_id mtp s).outcome
        = .error "User paying price too low" ∧
      (purchase_item balMax pay feeRate origin quantity item_id mtp s).state = s ∧
      (purchase_item balMax pay feeRate origin quantity item_id mtp s).call = none) ∧
    (p.2 * quantity < mtp.2 →
      (purchase_item balMax pay feeRate origin quantity item_id mtp s).call
        = some (PaymentCall.transfer p.1 origin seller (p.2 * quantity)) ∧
      (purchase_item balMax pay feeRate origin quantity item_id mtp s).outcome
        = pay (PaymentCall.transfer p.1 origin seller (p.2 * quantity))) := by
  have hsub : checked_sub (s.itemQuantities item_id) quantity
      = some (s.itemQuantities item_id - quantity) := by
    simp [checked_sub, hq]
  have hmul : checked_mul balMax p.2 quantity = some (p.2 * quantity) := by
    simp [checked_mul, hm]
  unfold purchase_item
  simp only [hsub, hp, ho, hmul]
  rw [if_pos heq]
  constructor
  · intro hle
    rw [if_neg (Nat.not_lt.mpr hle)]
    exact ⟨rfl, rfl, rfl⟩
  · intro hlt
    rw [if_pos hlt]
    cases hpc : pay (PaymentCall.transfer p.1 origin seller (p.2 * quantity)) <;>
      simp [hpc]

/-- Witness for purchase_item_same_asset_strict: total 50 against maximum
exactly 50 is rejected with the price-too-low error and no state change;
total 50 against maximum 51 invokes the direct transfer of 50. -/
theorem purchase_item_same_asset_strict_w :
    ((purchase_item 1000000 (fun _ => .ok ()) 0 3 5 0 (1, 50) sampleState).outcome
        = .error "User paying price too low" ∧
      (purchase_item 1000000 (fun _ => .ok ()) 0 3 5 0 (1, 50) sampleState).state = sampleState ∧
      (purchase_item 1000000 (fun _ => .ok ()) 0 3 5 0 (1, 50) sampleState).call = none) ∧
    (purchase_item 1000000 (fun _ => .ok ()) 0 3 5 0 (1, 51) sampleState).call
      = some (PaymentCall.transfer 1 3 7 50) :=
  ⟨(purchase_item_same_asset_strict 1000000 (fun _ => .ok ()) 0 3 5 0 (1, 10) (1, 50) 7
      sampleState (by decide) rfl rfl (by decide) rfl).1 (by decide),
   ((purchase_item_same_asset_strict 1000000 (fun _ => .ok ()) 0 3 5 0 (1, 10) (1, 51) 7
      sampleState (by decide) rfl rfl (by decide) rfl).2 (by decide)).1⟩

/-- C4: purchase_item evaluates its failure conditions in a fixed order:
the checked quantity subtraction first (so an insufficient quantity is
reported even when the price or owner is also missing), then the price
lookup, then the owner lookup, then the checked multiplication. -/
theorem purchase_item_error_order (balMax : Nat) (pay : PaymentCall → Except String Unit)
    (feeRate : Nat) (origin : Nat) (quantity : Nat) (item_id : Nat)
    (mtp : Price) (s : XPayState) :
    (s.itemQuantities item_id < quantity →
      (purchase_item balMax pay feeRate origin quantity item_id mtp s).outcome
        = .error "Not enough quantity" ∧
      (purchase_item balMax pay feeRate origin quantity item_id mtp s).state = s) ∧
    (quantity ≤ s.itemQuantities item_id → s.itemPrices item_id = none →
      (purchase_item balMax pay feeRate origin quantity item_id mtp s).outcome
        = .error "No item price") ∧
    (∀ p, quantity ≤ s.itemQuantities item_id → s.itemPrices item_id = some p →
      s.itemOwners item_id = none →
      (purchase_item balMax pay feeRate origin quantity item_id mtp s).outcome
        = .error "No item owner") ∧
    (∀ p seller, quantity ≤ s.itemQuantities item_id → s.itemPrices item_id = some p →
      s.itemOwners item_id = some seller → balMax < p.2 * quantity →
      (purchase_item balMax pay feeRate origin quantity item_id mtp s).outcome
        = .error "Total price overflow") := by
  refine ⟨fun h => ?_, fun hq hp => ?_, fun p hq hp ho => ?_, fun p seller hq hp ho hm => ?_⟩
  · have hsub : checked_sub (s.itemQuantities item_id) quantity = none := by
      simp [checked_sub]
      omega
    simp [purchase_item, hsub]
  · have hsub : checked_sub (s.itemQuantities item_id) quantity
        = some (s.itemQuantities item_id - quantity) := by
      simp [checked_sub, hq]
    simp [purchase_item, hsub, hp]
  · have hsub : checked_sub (s.itemQuantities item_id) quantity
        = some (s.itemQuantities item_id - quantity) := by
      simp [checked_sub, hq]
    simp [purchase_item, hsub, hp, ho]
  · have hsub : checked_sub (s.itemQuantities item_id) quantity
        = some (s.itemQuantities item_id - quantity) := by
      simp [checked_sub, hq]
    have hmul : checked_mul balMax p.2 quantity = none := by
      simp [checked_mul]
      omega
    simp [purchase_item, hsub, hp, ho, hmul]

/-- Witness for purchase_item_error_order: on the genesis state, where the
price and owner are missing too, requesting 5 of quantity 0 still reports
the insufficient-quantity error; on a quantity-only entry (made by add_item
without any Items entry) the error is the missing price; on a state without
owner the error is the missing owner; with balance bound 10 the total 50
overflows. -/
theorem purchase_item_error_order_w :
    ((purchase_item 1000000 (fun _ => .ok ()) 0 3 5 0 (1, 51) initialState).outcome
        = .error "Not enough quantity" ∧
      (purchase_item 1000000 (fun _ => .ok ()) 0 3 5 0 (1, 51) initialState).state
        = initialState) ∧
    (purchase_item 1000000 (fun _ => .ok ()) 0 3 5 0 (1, 51)
        (add_item 7 0 10 initialState).2).outcome = .error "No item price" ∧
    (purchase_item 1000000 (fun _ => .ok ()) 0 3 5 0 (1, 51)
        { sampleState with itemOwners := fun _ => none }).outcome = .error "No item owner" ∧
    (purchase_item 10 (fun _ => .ok ()) 0 3 5 0 (1, 51) sampleState).outcome
      = .error "Total price overflow" :=
  ⟨(purchase_item_error_order 1000000 (fun _ => .ok ()) 0 3 5 0 (1, 51) initialState).1
      (by decide),
   (purchase_item_error_order 1000000 (fun _ => .ok ()) 0 3 5 0 (1, 51)
      (add_item 7 0 10 initialState).2).2.1 (by decide) rfl,
   (purchase_item_error_order 1000000 (fun _ => .ok ()) 0 3 5 0 (1, 51)
      { sampleState with itemOwners := fun _ => none }).2.2.1 (1, 10) (by decide) rfl rfl,
   (purchase_item_error_order 10 (fun _ => .ok ()) 0 3 5 0 (1, 51) sampleState).2.2.2
      (1, 10) 7 (by decide) rfl rfl (by decide)⟩

/-- Inserting a some value into an Option-valued map keeps every key that
was populated populated, and populates the inserted key. -/
theorem mapInsert_some_isSome {α : Type} (m : Nat → Option α) (k : Nat) (v : α)
    (j : Nat) (h : (m j).isSome = true ∨ j = k) :
    ((mapInsert m k (some v)) j).isSome = true := by
  by_cases hc : j = k
  · simp [mapInsert, hc]
  · rw [mapInsert_ne _ _ _ _ hc]
    rcases h with h | h
    · exact h
    · exact absurd h hc

/-- Dispatching any single call preserves the structural invariant. -/
theorem applyOp_preserves_good (idMax balMax : Nat) (op : Op) (s : XPayState)
    (h : GoodState idMax s) : GoodState idMax (applyOp idMax balMax op s) := by
  obtain ⟨h1, h2, h3⟩ := h
  cases op
  case create origin q item p =>
    simp only [applyOp]
    unfold create_item
    dsimp only
    cases hca : checked_add idMax s.nextItemId 1 with
    | none => exact ⟨h1, h2, h3⟩
    | some nid =>
      unfold checked_add at hca
      split at hca
      · injection hca with hnext
        refine ⟨?_, fun id hid => ?_, fun id hid => ?_⟩
        · show nid ≤ idMax
          omega
        · show id < nid
          have hid2 : (mapInsert s.items s.nextItemId (some item) id).isSome = true := hid
          by_cases hcase : id = s.nextItemId
          · subst hcase
            omega
          · rw [mapInsert_ne _ _ _ _ hcase] at hid2
            have hlt := h2 id hid2
            omega
        · have hid2 : (mapInsert s.items s.nextItemId (some item) id).isSome = true := hid
          by_cases hcase : id = s.nextItemId
          · constructor
            · show (mapInsert s.itemOwners s.nextItemId (some origin) id).isSome = true
              rw [hcase, mapInsert_self]
              rfl
            · show (mapInsert s.itemPrices s.nextItemId (some p) id).isSome = true
              rw [hcase, mapInsert_self]
              rfl
          · rw [mapInsert_ne _ _ _ _ hcase] at hid2
            obtain ⟨ho2, hp2⟩ := h3 id hid2
            constructor
            · show (mapInsert s.itemOwners s.nextItemId (some origin) id).isSome = true
              rw [mapInsert_ne _ _ _ _ hcase]
              exact ho2
            · show (mapInsert s.itemPrices s.nextItemId (some p) id).isSome = true
              rw [mapInsert_ne _ _ _ _ hcase]
              exact hp2
      · exact absurd hca (by simp)
  case add origin iid q => exact ⟨h1, h2, h3⟩
  case remove origin iid q => exact ⟨h1, h2, h3⟩
  case update origin iid q pr =>
    simp only [applyOp]
    unfold update_item
    dsimp only
    split
    · rcases q with _ | qv <;> rcases pr with _ | pv <;> split <;>
        first
        | exact ⟨h1, h2, fun id hid => h3 id hid⟩
        | (refine ⟨h1, h2, fun id hid => ?_⟩
           have hid2 : (s.items id).isSome = true := hid
           obtain ⟨ho2, hp2⟩ := h3 id hid2
           exact ⟨ho2, mapInsert_some_isSome _ _ _ _ (Or.inl hp2)⟩)
    · exact ⟨h1, h2, h3⟩
  case purchase pay fr origin q iid mtp =>
    obtain ⟨hi, ho, hp, hn, _⟩ := purchase_item_frame balMax pay fr origin q iid mtp s
    simp only [applyOp]
    refine ⟨?_, fun id hid => ?_, fun id hid => ?_⟩
    · rw [hn]
      exact h1
    · rw [hi] at hid
      rw [hn]
      exact h2 id hid
    · rw [hi] at hid
      rw [ho, hp]
      exact h3 id hid

/-- Every reachable state satisfies the structural invariant. -/
theorem reachable_good (idMax balMax : Nat) (s : XPayState)
    (h : Reachable idMax balMax s) : GoodState idMax s := by
  induction h with
  | init =>
    refine ⟨Nat.zero_le _, fun id hid => ?_, fun id hid => ?_⟩ <;>
      simp [initialState] at hid
  | step op hr ih => exact applyOp_preserves_good idMax balMax op _ ih

/-- Dispatching one call advances the counter by 1 exactly when the call is
a successful create_item, and leaves it unchanged otherwise. -/
theorem applyOp_nextItemId (idMax balMax : Nat) (op : Op) (s : XPayState) :
    (applyOp idMax balMax op s).nextItemId
      = s.nextItemId
        + (match op with
           | .create origin q item p =>
             (match (create_item idMax origin q item p s).1 with
              | .ok _ => 1
              | .error _ => 0)
           | _ => 0) := by
  cases op
  case create origin q item p =>
    simp only [applyOp]
    unfold create_item
    dsimp only
    cases hca : checked_add idMax s.nextItemId 1 with
    | none => simp
    | some nid =>
      unfold checked_add at hca
      split at hca
      · injection hca with hnext
        simp
        omega
      · exact absurd hca (by simp)
  case add origin iid q => simp [applyOp, add_item]
  case remove origin iid q => simp [applyOp, remove_item]
  case update origin iid q pr =>
    simp only [applyOp]
    unfold update_item
    dsimp only
    split
    · rcases q with _ | qv <;> rcases pr with _ | pv <;>
        cases hpx : s.itemPrices iid <;> simp [hpx, mapInsert]
    · simp
  case purchase pay fr origin q iid mtp =>
    have hn := (purchase_item_frame balMax pay fr origin q iid mtp s).2.2.2.1
    simp [applyOp, hn]

/-- Running a list of calls advances the counter by exactly the number of
successful create_item calls among them. -/
theorem run_nextItemId (idMax balMax : Nat) : ∀ (ops : List Op) (s : XPayState),
    (run idMax balMax s ops).nextItemId
      = s.nextItemId + countCreateOk idMax balMax s ops := by
  intro ops
  induction ops with
  | nil => intro s; simp [run, countCreateOk]
  | cons op rest ih =>
    intro s
    simp only [run, countCreateOk]
    rw [ih (applyOp idMax balMax op s), applyOp_nextItemId idMax balMax op s]
    omega

/-- C5: in every state reachable from genesis by any sequence of the five
calls, an id with an Items entry also has an ItemOwners entry and an
ItemPrices entry; consequently, once the existence check inside
update_item passes, the price read back at the end never finds the price
absent — the expect-failure branch is unreachable and update_item returns
success for every argument combination. -/
theorem items_have_owner_and_price (idMax balMax : Nat) (s : XPayState)
    (hr : Reachable idMax balMax s) :
    (∀ id, (s.items id).isSome → (s.itemOwners id).isSome ∧ (s.itemPrices id).isSome) ∧
    (∀ origin id q p, (s.items id).isSome →
      (update_item origin id q p s).1 = .ok ()) := by
  obtain ⟨g1, g2, g3⟩ := reachable_good idMax balMax s hr
  refine ⟨g3, fun origin id q p hid => ?_⟩
  unfold update_item
  dsimp only
  rw [if_pos hid]
  have hps : (s.itemPrices id).isSome = true := (g3 id hid).2
  obtain ⟨pv2, hpv⟩ := Option.isSome_iff_exists.mp hps
  rcases q with _ | qv <;> rcases p with _ | pv <;> simp [hpv, mapInsert]

/-- Witness for items_have_owner_and_price at the reachable one-item
state: item 0 has an owner and a price, and update_item on it succeeds. -/
theorem items_have_owner_and_price_w :
    ((sampleState.itemOwners 0).isSome ∧ (sampleState.itemPrices 0).isSome) ∧
    (update_item 9 0 (some 7) none sampleState).1 = .ok () := by
  have h := items_have_owner_and_price 1000 1000000 sampleState
    (Reachable.step sampleOp Reachable.init)
  exact ⟨h.1 0 (by decide), h.2 9 0 (some 7) none (by decide)⟩

/-- C6: id allocation in create_item.  Under the invariant that the counter
is at most the id bound: allocation fails exactly when the counter holds
the maximum id value, and then the storage (counter included) is unchanged;
on success the allocated id is the current counter value, the counter
advances by one, and the item is registered under the allocated id.  The
counter of the state reached from genesis by any call sequence equals the
number of successful create_item calls in it, so the N-th successful
create receives id N-1 and no id is ever reused; and the maximum id value
(the overflow sentinel) is never assigned to any item in any reachable
state. -/
theorem create_item_id_allocation (idMax balMax : Nat) (origin : Nat)
    (quantity : Nat) (item : Nat) (price : Price) (s : XPayState)
    (hs : s.nextItemId ≤ idMax) :
    ((∃ e, (create_item idMax origin quantity item price s).1 = .error e)
      ↔ s.nextItemId = idMax) ∧
    (s.nextItemId = idMax →
      (create_item idMax origin quantity item price s).2 = s) ∧
    (s.nextItemId < idMax →
      (create_item idMax origin quantity item price s).1 = .ok () ∧
      (create_item idMax origin quantity item price s).2.items s.nextItemId = some item ∧
      (create_item idMax origin quantity item price s).2.nextItemId = s.nextItemId + 1) ∧
    (∀ ops, (run idMax balMax initialState ops).nextItemId
      = countCreateOk idMax balMax initialState ops) ∧
    (∀ t, Reachable idMax balMax t → t.items idMax = none) := by
  refine ⟨⟨?_, ?_⟩, ?_, ?_, ?_, ?_⟩
  · rintro ⟨e, he⟩
    by_contra hne
    have hca : checked_add idMax s.nextItemId 1 = some (s.nextItemId + 1) := by
      unfold checked_add
      rw [if_pos (by omega)]
    simp [create_item, hca] at he
  · intro hmax
    have hca : checked_add idMax s.nextItemId 1 = none := by
      unfold checked_add
      rw [if_neg (by omega)]
    exact ⟨"No new item id is available.", by simp [create_item, hca]⟩
  · intro hmax
    have hca : checked_add idMax s.nextItemId 1 = none := by
      unfold checked_add
      rw [if_neg (by omega)]
    simp [create_item, hca]
  · intro hlt
    have hca : checked_add idMax s.nextItemId 1 = some (s.nextItemId + 1) := by
      unfold checked_add
      rw [if_pos (by omega)]
    simp [create_item, hca]
  · intro ops
    rw [run_nextItemId idMax balMax ops initialState]
    simp [initialState]
  · intro t ht
    obtain ⟨g1, g2, g3⟩ := reachable_good idMax balMax t ht
    cases hx : t.items idMax with
    | none => rfl
    | some v =>
      exfalso
      have := g2 idMax (by rw [hx]; rfl)
      omega

/-- Witness for create_item_id_allocation at the reachable one-item state:
creating a second item from counter 1 succeeds with id 1 and advances the
counter to 2; the counter after running the one-call genesis sequence
equals its one successful create; and the sentinel id 1000 is unassigned. -/
theorem create_item_id_allocation_w :
    ((create_item 1000 9 5 3 (1, 2) sampleState).1 = .ok () ∧
      (create_item 1000 9 5 3 (1, 2) sampleState).2.items 1 = some 3 ∧
      (create_item 1000 9 5 3 (1, 2) sampleState).2.nextItemId = 2) ∧
    (run 1000 1000000 initialState [sampleOp]).nextItemId
      = countCreateOk 1000 1000000 initialState [sampleOp] ∧
    sampleState.items 1000 = none := by
  have h := create_item_id_allocation 1000 1000000 9 5 3 (1, 2) sampleState (by decide)
  exact ⟨h.2.2.1 (by decide), h.2.2.2.1 [sampleOp],
    h.2.2.2.2 sampleState (Reachable.step sampleOp Reachable.init)⟩

end XPay
